import Mathlib

/-!
Shallow embedding of the Invoice-Parser field-resolution and validation
engine (`src/core/parser.py`, `src/core/validator.py`).

Conventions of the embedding:
* Python `dict` values flowing through the pipeline are modelled as
  insertion-ordered association lists `List (String × Json)`; assignment
  `d[k] = v` keeps the position of an existing key and appends otherwise
  (`dictInsert`), exactly like CPython dicts.
* Python numbers (`int`/`float`) are modelled together as exact fractions
  `Frac` (integer numerator, positive denominator, not necessarily reduced).
  All comparisons are exact cross-multiplication comparisons; the decimal
  literals appearing in the claims are exactly representable, so comparison
  results agree with CPython floats on every input considered here.
  Rendering of numbers inside diagnostic message strings uses `fmtFrac`
  (`num/den`), which differs from CPython's float `repr`; no claim depends
  on the text of a number embedded in a message.
* Functions that can raise a Python exception that escapes to a caller are
  modelled in `Except String`; exception *messages* are modelled by short
  representative strings.
* Python string methods (`lower`, `strip`, `split`, `replace`, `in`, …) are
  re-implemented over `List Char` (ASCII behaviour, which covers every string
  the engine manipulates); regular-expression substitutions used by the code
  are implemented as direct scanning functions with the same match semantics
  on their (disjoint-alphabet, hence backtracking-free) patterns.
-/

/-! ## Python-style string primitives -/

/-- Python whitespace for `str.strip` / `str.split()` / `\s` (ASCII range). -/
def isPySpace (c : Char) : Bool :=
  c = ' ' || c = '\t' || c = '\n' || c = '\r' || c = '\x0b' || c = '\x0c'

/-- Test whether `pat` is an initial segment of `l`. -/
def startsWithChars : List Char → List Char → Bool
  | [], _ => true
  | _ :: _, [] => false
  | a :: as, b :: bs => a = b && startsWithChars as bs

/-- Test whether `pat` occurs contiguously inside `l`. -/
def containsChars (pat : List Char) : List Char → Bool
  | [] => pat.isEmpty
  | c :: t => startsWithChars pat (c :: t) || containsChars pat t

/-- Python `pat in hay` (substring containment). -/
def pyIn (pat hay : String) : Bool := containsChars pat.data hay.data

/-- Python `str.lower()` (ASCII letters). -/
def pyLowerChar (c : Char) : Char :=
  if 'A' ≤ c ∧ c ≤ 'Z' then Char.ofNat (c.toNat + 32) else c

/-- Python `str.lower()`. -/
def pyLower (s : String) : String := String.mk (s.data.map pyLowerChar)

/-- Python `str.strip()` (both ends, Python whitespace). -/
def trimChars (l : List Char) : List Char :=
  ((l.dropWhile isPySpace).reverse.dropWhile isPySpace).reverse

/-- Python `str.strip()`. -/
def pyTrim (s : String) : String := String.mk (trimChars s.data)

/-- Helper for `pySplitWs`: split on runs of whitespace, dropping empties. -/
def splitWsAux : List Char → List Char → List (List Char)
  | [], acc => if acc.isEmpty then [] else [acc.reverse]
  | c :: rest, acc =>
      if isPySpace c then
        if acc.isEmpty then splitWsAux rest [] else acc.reverse :: splitWsAux rest []
      else splitWsAux rest (c :: acc)

/-- Python `str.split()` with no separator: split on whitespace runs. -/
def pySplitWs (s : String) : List String := (splitWsAux s.data []).map String.mk

/-- Helper for `pySplit`: fueled left-to-right split on a non-empty separator. -/
def splitOnAux (sep : List Char) : Nat → List Char → List Char → List (List Char)
  | 0, l, acc => [acc.reverse ++ l]
  | _ + 1, [], acc => [acc.reverse]
  | fuel + 1, c :: rest, acc =>
      if startsWithChars sep (c :: rest) then
        acc.reverse :: splitOnAux sep fuel ((c :: rest).drop sep.length) []
      else
        splitOnAux sep fuel rest (c :: acc)

/-- Python `s.split(sep)` for a non-empty separator `sep`. -/
def pySplit (s sep : String) : List String :=
  (splitOnAux sep.data (s.data.length + 1) s.data []).map String.mk

/-- Fueled helper for `pyReplace` (patterns used are always non-empty). -/
def replaceChars (pat rep : List Char) : Nat → List Char → List Char
  | 0, l => l
  | _ + 1, [] => []
  | fuel + 1, c :: rest =>
      if startsWithChars pat (c :: rest) then
        rep ++ replaceChars pat rep fuel ((c :: rest).drop pat.length)
      else
        c :: replaceChars pat rep fuel rest

/-- Python `s.replace(pat, rep)` for a non-empty pattern. -/
def pyReplace (s pat rep : String) : String :=
  String.mk (replaceChars pat.data rep.data (s.data.length + 1) s.data)

/-- Python `'\n'.join(lines)`-style joining. -/
def joinWith (sep : String) : List String → String
  | [] => ""
  | [s] => s
  | s :: rest => s ++ sep ++ joinWith sep rest

/-- Count occurrences of a character (Python `s.count(c)` for one char). -/
def countChar (c : Char) (l : List Char) : Nat := (l.filter (· = c)).length

/-- Python `s.find(c)` for a single character, as an `Option` index. -/
def firstIdx (c : Char) : List Char → Option Nat
  | [] => none
  | x :: xs => if x = c then some 0 else (firstIdx c xs).map (· + 1)

/-- Python `s.rfind(c)` for a single character, as an `Option` index. -/
def lastIdx (c : Char) (l : List Char) : Option Nat :=
  (firstIdx c l.reverse).map (fun i => l.length - 1 - i)

/-- ASCII decimal digit test (Python `str.isdigit` on the strings involved). -/
def isAsciiDigit (c : Char) : Bool := '0' ≤ c && c ≤ '9'

/-- Numeric value of a list of ASCII digits. -/
def digitsVal (l : List Char) : Nat :=
  l.foldl (fun a c => a * 10 + (c.toNat - 48)) 0

/-! ## Exact fractions standing in for Python numbers -/

/-- Exact fraction: Python `int`/`float` values are embedded here. The
denominator is kept positive by construction; fractions are not reduced
(`Nat.gcd` is avoided so that all arithmetic kernel-reduces). -/
structure Frac where
  num : Int
  den : Nat
  deriving DecidableEq, Repr

/-- The integer `n` as a fraction. -/
def Frac.ofInt (n : Int) : Frac := ⟨n, 1⟩

/-- Model of `a < b` on fractions with positive denominators. -/
def Frac.blt (a b : Frac) : Bool := a.num * (b.den : Int) < b.num * (a.den : Int)

/-- Model of `a ≤ b` on fractions with positive denominators. -/
def Frac.ble (a b : Frac) : Bool := a.num * (b.den : Int) ≤ b.num * (a.den : Int)

/-- Value equality (`==` on Python numbers). -/
def Frac.beq (a b : Frac) : Bool := a.num * (b.den : Int) = b.num * (a.den : Int)

/-- Subtraction. -/
def Frac.sub (a b : Frac) : Frac :=
  ⟨a.num * (b.den : Int) - b.num * (a.den : Int), a.den * b.den⟩

/-- Multiplication. -/
def Frac.mul (a b : Frac) : Frac := ⟨a.num * b.num, a.den * b.den⟩

/-- Division; only ever applied with `b.num ≠ 0` (the code models Python's
`ZeroDivisionError` explicitly before dividing). -/
def Frac.div (a b : Frac) : Frac :=
  if 0 ≤ b.num then ⟨a.num * (b.den : Int), a.den * b.num.toNat⟩
  else ⟨-(a.num * (b.den : Int)), a.den * (-b.num).toNat⟩

/-- Absolute value. -/
def Frac.abs (a : Frac) : Frac := ⟨(a.num.natAbs : Int), a.den⟩

/-- Maximum of a value and a list (Python `max` over dict values). -/
def Frac.maxList (x : Frac) : List Frac → Frac
  | [] => x
  | y :: ys => if Frac.blt x y then Frac.maxList y ys else Frac.maxList x ys

/-- Descending insertion used by `sortDesc`. -/
def Frac.insertDesc (x : Frac) : List Frac → List Frac
  | [] => [x]
  | y :: ys => if Frac.ble y x then x :: y :: ys else y :: Frac.insertDesc x ys

/-- Python `list.sort(reverse=True)` on the embedded numbers. -/
def sortDesc (l : List Frac) : List Frac := l.foldr Frac.insertDesc []

/-- Rendering of a number inside a diagnostic message. CPython renders the
underlying float (`"212.09"`); the embedding renders `num/den`. No claim
depends on this text. -/
def fmtFrac (a : Frac) : String := toString a.num ++ "/" ++ toString a.den

/-! ## The JSON-ish values flowing through the pipeline -/

/-- Values of the mappings flowing through the pipeline (Python
`None`/`bool`/`int`/`float`/`str`/`list`/`dict`). `int` and `float` are
merged into `num` (see `Frac`). -/
inductive Json where
  | null
  | bool (b : Bool)
  | num (q : Frac)
  | str (s : String)
  | arr (elems : List Json)
  | obj (fields : List (String × Json))

/-- Python `value is None`. -/
def Json.isNull : Json → Bool
  | .null => true
  | _ => false

/-- Is the value a mapping (`dict`)? -/
def Json.isObj : Json → Bool
  | .obj _ => true
  | _ => false

/-- Python truthiness of a pipeline value (`if not value: ...`). -/
def pyTruthy : Json → Bool
  | .null => false
  | .bool b => b
  | .num q => !(q.num = 0)
  | .str s => !s.data.isEmpty
  | .arr l => !l.isEmpty
  | .obj l => !l.isEmpty

/-- CPython dict assignment `d[k] = v` on the association-list model:
overwrite in place if the key exists, else append. -/
def dictInsert {α : Type} (d : List (String × α)) (k : String) (v : α) :
    List (String × α) :=
  if d.any (fun kv => kv.1 = k) then
    d.map (fun kv => if kv.1 = k then (k, v) else kv)
  else d ++ [(k, v)]

mutual

/-- Python `str(x)` for the pipeline values, used where the code stringifies a
value before a regex (`str(phone)`, `str(field_value)`, …). For `num` the
rendering is `fmtFrac`'s (CPython would render the float/int; only the digit
content can matter downstream and no claim exercises non-string values on
those paths). -/
def pyStr : Json → String
  | .null => "None"
  | .bool b => if b then "True" else "False"
  | .num q => fmtFrac q
  | .str s => s
  | .arr l => "[" ++ joinWith ", " (pyStrList l) ++ "]"
  | .obj l => "\x7b" ++ joinWith ", " (pyStrFields l) ++ "\x7d"

def pyStrList : List Json → List String
  | [] => []
  | v :: t => pyStr v :: pyStrList t

def pyStrFields : List (String × Json) → List String
  | [] => []
  | (k, v) :: t => ("'" ++ k ++ "': " ++ pyStr v) :: pyStrFields t

end

/-! ## Python numeric-string parsing (restricted to the alphabets that reach it) -/

/-- Split a character list on a single character (every occurrence). -/
def splitChar (c : Char) : List Char → List (List Char)
  | [] => [[]]
  | x :: xs =>
      if x = c then [] :: splitChar c xs
      else
        match splitChar c xs with
        | [] => [[x]]
        | h :: t => (x :: h) :: t

/-- Python `float(s)` for strings over the alphabet `digits ∪ {'.', '-'}`
(the only strings fed to `float` after the code's `re.sub` stripping):
optional leading `-`, at most one `.`, at least one digit, nothing else.
Returns the exact value as a `Frac`. -/
def pyFloatFrac? (s : String) : Option Frac :=
  let (neg, rest) :=
    match s.data with
    | '-' :: r => (true, r)
    | r => (false, r)
  match splitChar '.' rest with
  | [ds] =>
      if !ds.isEmpty && ds.all isAsciiDigit then
        some ⟨(if neg then -1 else 1) * (digitsVal ds : Int), 1⟩
      else none
  | [ds1, ds2] =>
      if !(ds1 ++ ds2).isEmpty && (ds1 ++ ds2).all isAsciiDigit then
        some ⟨(if neg then -1 else 1) * (digitsVal (ds1 ++ ds2) : Int), 10 ^ ds2.length⟩
      else none
  | _ => none

/-- Python `int(s)` for strings over the alphabet `digits ∪ {'-'}`:
optional leading `-`, then at least one digit. -/
def pyIntParse? (s : String) : Option Int :=
  match s.data with
  | [] => none
  | '-' :: r => if !r.isEmpty && r.all isAsciiDigit then some (-(digitsVal r : Int)) else none
  | r => if r.all isAsciiDigit then some (digitsVal r : Int) else none

/-- Model of `re.sub(r'[^\d.-]', '', s)`: keep only digits, `.` and `-`. -/
def keepNumChars (s : String) : String :=
  String.mk (s.data.filter (fun c => isAsciiDigit c || c = '.' || c = '-'))

/-! ## Request Classifier (`InvoiceParser.analyze_user_request`) -/

/-- Model of `InvoiceParser.field_keywords` (parser.py lines 19–36), in source order. -/
def fieldKeywords : List (String × List String) :=
  [("invoice_number", ["invoice number", "invoice #", "invoice id", "invoice no", "inv no", "inv #"]),
   ("vendor_name", ["vendor name", "vendor", "supplier", "company name", "seller", "from", "sold by"]),
   ("customer_name", ["customer name", "customer", "client", "buyer", "bill to", "sold to"]),
   ("total_amount", ["total amount", "final total", "grand total", "amount due", "final amount",
                     "net payable", "amount payable", "gross worth", "gross total"]),
   ("date", ["date", "invoice date", "issue date", "created date"]),
   ("due_date", ["due date", "payment due", "due by"]),
   ("tax", ["tax", "vat", "gst", "sales tax", "igst", "cgst", "sgst"]),
   ("taxable_value", ["taxable value", "taxable amount", "net worth", "net amount"]),
   ("subtotal", ["subtotal", "sub total"]),
   ("items", ["items", "products", "line items", "goods", "services"]),
   ("address", ["address", "billing address", "shipping address"]),
   ("phone", ["phone", "telephone", "contact", "tel"]),
   ("email", ["email", "e-mail", "electronic mail"]),
   ("po_number", ["po number", "purchase order", "po #"]),
   ("discount", ["discount", "reduction"]),
   ("currency", ["currency", "curr"])]

/-- Model of `self.field_keywords.get(field_type, [])`. -/
def keywordsFor (fieldType : String) : List String :=
  match fieldKeywords.find? (fun kv => kv.1 = fieldType) with
  | some kv => kv.2
  | none => []

/-- The intent descriptor produced by `analyze_user_request`. -/
structure Analysis where
  requested_fields : List String
  is_specific : Bool
  extraction_type : String
  deriving DecidableEq, Repr

/-- Model of `InvoiceParser.analyze_user_request` (parser.py lines 86–122). -/
def analyze_user_request (user_prompt : String) : Analysis :=
  let pl := pyLower user_prompt
  let requested := fieldKeywords.foldl
    (fun acc ftkw => if ftkw.2.any (fun kw => pyIn kw pl) then acc ++ [ftkw.1] else acc) []
  let requested :=
    if (["total cost", "total amount", "total", "final total"].any (fun t => pyIn t pl))
        && !(requested.contains "total_amount")
    then requested ++ ["total_amount"] else requested
  let isSpecific := ["only", "just", "extract", "find", "get", "what is"].any (fun t => pyIn t pl)
  let etype := if isSpecific then "specific" else "general"
  let etype :=
    if ["all", "everything", "complete", "full", "entire"].any (fun t => pyIn t pl)
    then "all" else etype
  if requested.isEmpty && (pySplitWs user_prompt).length ≤ 5 then
    { requested_fields := requested, is_specific := true, extraction_type := "specific" }
  else
    { requested_fields := requested, is_specific := isSpecific, extraction_type := etype }

/-! ## Field Filter (`InvoiceParser.filter_extracted_data`) -/

/-- The priority list of parser.py lines 313–316. -/
def totalPriority : List String :=
  ["gross_total", "gross_worth", "final_total", "grand_total",
   "total_amount", "amount_due", "total", "final_amount"]

/-- Model of `any(avoid in key_lower for avoid in ['taxable', 'net_worth', 'net_amount', 'subtotal'])`. -/
def totalAvoidHit (key : String) : Bool :=
  ["taxable", "net_worth", "net_amount", "subtotal"].any (fun t => pyIn t (pyLower key))

/-- Some entry of `totalPriority` occurs in the lower-cased key. -/
def totalPriorityHit (key : String) : Bool :=
  totalPriority.any (fun t => pyIn t (pyLower key))

/-- One iteration of the `best_total_field` selection loop of
`filter_extracted_data` (parser.py lines 322–340): skip keys hitting the
avoid list; the inner `for priority_field in total_priority: ... break`
assigns the key to the (still-unset) best slot as soon as any priority entry
occurs in it; the trailing generic-`'total'` check only fires when the best
slot is still unset after the priority loop. -/
def findBestTotalStep (best : Option (String × Json)) (kv : String × Json) :
    Option (String × Json) :=
  let kl := pyLower kv.1
  if ["taxable", "net_worth", "net_amount", "subtotal"].any (fun t => pyIn t kl) then best
  else
    let best2 :=
      match totalPriority.find? (fun pf => pyIn pf kl) with
      | some _ => if best.isNone then some kv else best
      | none => best
    if best2.isNone && pyIn "total" kl then some kv else best2

/-- The `best_total_field` selection loop of `filter_extracted_data`
(parser.py lines 318–340), over the keys in mapping order. -/
def findBestTotal (d : List (String × Json)) : Option (String × Json) :=
  d.foldl findBestTotalStep none

/-- Model of `InvoiceParser.filter_extracted_data` (parser.py lines 295–380). -/
def filter_extracted_data (extracted_data : List (String × Json)) (user_prompt : String) :
    List (String × Json) :=
  let ra := analyze_user_request user_prompt
  if ra.extraction_type = "all" then extracted_data
  else if ra.requested_fields.isEmpty && !ra.is_specific then extracted_data
  else
    let pl := pyLower user_prompt
    let fd0 : List (String × Json) := []
    let fd1 :=
      if ["total cost", "total amount", "total"].any (fun t => pyIn t pl) then
        match findBestTotal extracted_data with
        | some kv => dictInsert fd0 kv.1 kv.2
        | none => fd0
      else fd0
    let promptWords := (pySplitWs pl).filter (fun w => w.length > 3)
    let fd2 := extracted_data.foldl
      (fun fd kv =>
        let kl := pyReplace (pyReplace (pyLower kv.1) "_" " ") "-" " "
        let include1 := ra.requested_fields.any
          (fun ft => (keywordsFor ft).any (fun kw => pyIn kw kl))
        let include2 := promptWords.any
          (fun w => pyIn w kl || (pySplitWs kl).any (fun kk => pyIn w kk))
        if include1 || include2 then dictInsert fd kv.1 kv.2 else fd)
      fd1
    if fd2.isEmpty && !extracted_data.isEmpty then
      if (pySplitWs user_prompt).length ≤ 3 then
        let fd3 :=
          match extracted_data.find? (fun kv => !kv.2.isNull) with
          | some kv => dictInsert fd2 kv.1 kv.2
          | none => fd2
        if fd3.isEmpty then extracted_data else fd3
      else extracted_data
    else if fd2.isEmpty then extracted_data else fd2

/-! ## Field Normalizer (`InvoiceParser.post_process_data`) -/

/-- Model of `key.strip().lower().replace(' ', '_').replace('-', '_')`. -/
def cleanKey (key : String) : String :=
  pyReplace (pyReplace (pyLower (pyTrim key)) " " "_") "-" "_"

/-- Does the canonical key contain one of the amount indicators of
parser.py line 398? -/
def amountKeyHit (clean_key : String) : Bool :=
  ["amount", "total", "price", "cost", "tax"].any (fun ak => pyIn ak clean_key)

/-- The trimmed string is empty or one of the placeholder spellings
(parser.py line 395). -/
def isPlaceholderOrEmpty (t : String) : Bool :=
  t.data.isEmpty || ["n/a", "na", "none", "null"].contains (pyLower t)

/-- The numeric coercion of parser.py lines 400–407 applied to the stripped
numeric string: float when a `.` remains, else `None` for the empty string,
else int; `none` here models the `ValueError → keep the string` path. -/
def numCoerce? (nv : String) : Option Json :=
  if pyIn "." nv then (pyFloatFrac? nv).map Json.num
  else if nv.data.isEmpty then some Json.null
  else (pyIntParse? nv).map (fun i => Json.num (Frac.ofInt i))

/-- The per-value cleanup of `post_process_data` (parser.py lines 390–407). -/
def processValue (clean_key : String) (v : Json) : Json :=
  match v with
  | .str s0 =>
      let s := pyTrim s0
      if isPlaceholderOrEmpty s then .null
      else if amountKeyHit clean_key then
        match numCoerce? (keepNumChars s) with
        | some j => j
        | none => .str s
      else .str s
  | v => v

/-- Model of `InvoiceParser.post_process_data` (parser.py lines 382–411). -/
def post_process_data (data : List (String × Json)) : List (String × Json) :=
  data.foldl
    (fun acc kv => dictInsert acc (cleanKey kv.1) (processValue (cleanKey kv.1) kv.2)) []

/-! ## `datetime.strptime` for the nine formats used by `DataValidator.validate_date` -/

/-- Model of `%Y`: exactly four ASCII digits. -/
def parseYear4 : List Char → Option (Nat × List Char)
  | a :: b :: c :: d :: rest =>
      if isAsciiDigit a && isAsciiDigit b && isAsciiDigit c && isAsciiDigit d then
        some (digitsVal [a, b, c, d], rest)
      else none
  | _ => none

/-- Model of `%d`: `3[01]|[12]\d|0[1-9]|[1-9]` — a two-digit day 01–31 when the next
two characters allow it, else a single digit 1–9. -/
def parseDay : List Char → Option (Nat × List Char)
  | a :: b :: rest =>
      if isAsciiDigit a && isAsciiDigit b &&
          ((a = '3' && (b = '0' || b = '1')) || a = '1' || a = '2' ||
           (a = '0' && b ≠ '0')) then
        some (digitsVal [a, b], rest)
      else if isAsciiDigit a && a ≠ '0' then some (digitsVal [a], b :: rest)
      else none
  | [a] => if isAsciiDigit a && a ≠ '0' then some (digitsVal [a], []) else none
  | [] => none

/-- Model of `%m`: `1[0-2]|0[1-9]|[1-9]`. -/
def parseMonthNum : List Char → Option (Nat × List Char)
  | a :: b :: rest =>
      if isAsciiDigit a && isAsciiDigit b &&
          ((a = '1' && (b = '0' || b = '1' || b = '2')) || (a = '0' && b ≠ '0')) then
        some (digitsVal [a, b], rest)
      else if isAsciiDigit a && a ≠ '0' then some (digitsVal [a], b :: rest)
      else none
  | [a] => if isAsciiDigit a && a ≠ '0' then some (digitsVal [a], []) else none
  | [] => none

/-- A literal character of the format. -/
def parseLit (c : Char) : List Char → Option (List Char)
  | x :: rest => if x = c then some rest else none
  | [] => none

/-- A whitespace character of the format matches `\s+` in `_strptime`. -/
def parseWs1 : List Char → Option (List Char)
  | x :: rest => if isPySpace x then some (rest.dropWhile isPySpace) else none
  | [] => none

/-- Full month names (`%B`), lower-case; matched case-insensitively. -/
def monthNamesFull : List (String × Nat) :=
  [("january", 1), ("february", 2), ("march", 3), ("april", 4), ("may", 5), ("june", 6),
   ("july", 7), ("august", 8), ("september", 9), ("october", 10), ("november", 11),
   ("december", 12)]

/-- Abbreviated month names (`%b`). -/
def monthNamesAbbr : List (String × Nat) :=
  [("jan", 1), ("feb", 2), ("mar", 3), ("apr", 4), ("may", 5), ("jun", 6),
   ("jul", 7), ("aug", 8), ("sep", 9), ("oct", 10), ("nov", 11), ("dec", 12)]

/-- Model of `%B`/`%b`: case-insensitive month-name alternation (no name is a prefix
of another, so first-match is unambiguous). -/
def parseMonthName (names : List (String × Nat)) (l : List Char) :
    Option (Nat × List Char) :=
  match names.find? (fun nm => startsWithChars nm.1.data (l.map pyLowerChar)) with
  | some nm => some (nm.2, l.drop nm.1.data.length)
  | none => none

/-- Gregorian leap year, as used by `datetime`. -/
def isLeapYear (y : Nat) : Bool := y % 4 = 0 && (y % 100 ≠ 0 || y % 400 = 0)

/-- Days in a month, as validated by the `datetime` constructor. -/
def daysInMonth (y m : Nat) : Nat :=
  if m = 2 then (if isLeapYear y then 29 else 28)
  else if m = 4 || m = 6 || m = 9 || m = 11 then 30
  else 31

/-- The `datetime(year, month, day)` construction performed by `strptime`
succeeds iff the date is a real calendar date with `1 ≤ year ≤ 9999`. -/
def dateValid (y m d : Nat) : Bool :=
  1 ≤ y && y ≤ 9999 && 1 ≤ m && m ≤ 12 && 1 ≤ d && d ≤ daysInMonth y m

/-- Model of `strptime` with format `%Y s %m s %d` for separator `s` (whole string). -/
def strptimeYmd (sep : Char) (l : List Char) : Bool :=
  match parseYear4 l with
  | none => false
  | some (y, r1) =>
    match parseLit sep r1 with
    | none => false
    | some r2 =>
      match parseMonthNum r2 with
      | none => false
      | some (m, r3) =>
        match parseLit sep r3 with
        | none => false
        | some r4 =>
          match parseDay r4 with
          | some (d, []) => dateValid y m d
          | _ => false

/-- Model of `strptime` with format `%d s %m s %Y`. -/
def strptimeDmy (sep : Char) (l : List Char) : Bool :=
  match parseDay l with
  | none => false
  | some (d, r1) =>
    match parseLit sep r1 with
    | none => false
    | some r2 =>
      match parseMonthNum r2 with
      | none => false
      | some (m, r3) =>
        match parseLit sep r3 with
        | none => false
        | some r4 =>
          match parseYear4 r4 with
          | some (y, []) => dateValid y m d
          | _ => false

/-- Model of `strptime` with format `%m s %d s %Y`. -/
def strptimeMdy (sep : Char) (l : List Char) : Bool :=
  match parseMonthNum l with
  | none => false
  | some (m, r1) =>
    match parseLit sep r1 with
    | none => false
    | some r2 =>
      match parseDay r2 with
      | none => false
      | some (d, r3) =>
        match parseLit sep r3 with
        | none => false
        | some r4 =>
          match parseYear4 r4 with
          | some (y, []) => dateValid y m d
          | _ => false

/-- Model of `strptime` with format `%B %d, %Y` (or `%b` with abbreviated names):
month name, whitespace, day, comma, whitespace, four-digit year. -/
def strptimeNameDY (names : List (String × Nat)) (l : List Char) : Bool :=
  match parseMonthName names l with
  | none => false
  | some (m, r1) =>
    match parseWs1 r1 with
    | none => false
    | some r2 =>
      match parseDay r2 with
      | none => false
      | some (d, r3) =>
        match parseLit ',' r3 with
        | none => false
        | some r4 =>
          match parseWs1 r4 with
          | none => false
          | some r5 =>
            match parseYear4 r5 with
            | some (y, []) => dateValid y m d
            | _ => false

/-! ## Per-field validators (`DataValidator`) -/

/-- Local-part character class of the email pattern. -/
def isEmailLocalChar (c : Char) : Bool :=
  c.isAlpha || isAsciiDigit c || c = '.' || c = '_' || c = '%' || c = '+' || c = '-'

/-- Domain-part character class of the email pattern. -/
def isEmailDomainChar (c : Char) : Bool :=
  c.isAlpha || isAsciiDigit c || c = '.' || c = '-'

/-- The core of `^[a-zA-Z0-9._%+-]+@[a-zA-Z0-9.-]+\.[a-zA-Z]\x7b2,\x7d$`:
since `@` is in neither class there is exactly one `@`, and since the TLD
must be all-alphabetic up to the end, only the last dot of the domain part
can serve as the `\.`. -/
def emailCoreMatch (l : List Char) : Bool :=
  match splitChar '@' l with
  | [loc, rest] =>
      !loc.isEmpty && loc.all isEmailLocalChar &&
      (match lastIdx '.' rest with
       | some k =>
           let d := rest.take k
           let tld := rest.drop (k + 1)
           !d.isEmpty && d.all isEmailDomainChar && tld.length ≥ 2 && tld.all Char.isAlpha
       | none => false)
  | _ => false

/-- Model of `re` `$` with `re.match`: the pattern may also match with a single
trailing newline left over. -/
def reDollarWrap (core : List Char → Bool) (l : List Char) : Bool :=
  core l || (match l.getLast? with
             | some c => if c = '\n' then core l.dropLast else false
             | none => false)

/-- Model of `DataValidator.validate_email` (validator.py lines 12–18). `re.match`
raises `TypeError` on a non-string truthy argument, which escapes to
`validate_extraction`'s catch-all; the message models CPython's. -/
def validate_email (v : Json) : Except String Bool :=
  if !pyTruthy v then .ok true
  else
    match v with
    | .str s => .ok (reDollarWrap emailCoreMatch s.data)
    | _ => .error "expected string or bytes-like object"

/-- Model of `DataValidator.validate_phone` (validator.py lines 20–28):
strip `\s`, `-`, `(`, `)`, `+` from `str(phone)`, then require 7–15 digits. -/
def validate_phone (v : Json) : Bool :=
  if !pyTruthy v then true
  else
    let cleaned := (pyStr v).data.filter
      (fun c => !(isPySpace c || c = '-' || c = '(' || c = ')' || c = '+'))
    !cleaned.isEmpty && cleaned.all isAsciiDigit &&
      7 ≤ cleaned.length && cleaned.length ≤ 15

/-- Model of `DataValidator.validate_amount` (validator.py lines 30–50). -/
def validate_amount (v : Json) : Bool :=
  match v with
  | .null => true
  | .str s =>
      let cleaned := s.data.filter (fun c => isAsciiDigit c || c = '.' || c = '-' || c = ',')
      if cleaned.isEmpty then true
      else (pyFloatFrac? (String.mk (cleaned.map (fun c => if c = ',' then '.' else c)))).isSome
  | .num _ => true
  | .bool _ => true
  | .arr _ => false
  | .obj _ => false

/-- Model of `DataValidator.validate_date` (validator.py lines 52–77): the string
form of the value must match one of the nine listed formats (the list
repeats `%d-%m-%Y`; the repetition is kept). -/
def validate_date (v : Json) : Bool :=
  if !pyTruthy v then true
  else
    let l := (pyStr v).data
    [strptimeYmd '-' l, strptimeDmy '/' l, strptimeMdy '/' l, strptimeDmy '-' l,
     strptimeMdy '-' l, strptimeDmy '.' l, strptimeNameDY monthNamesFull l,
     strptimeNameDY monthNamesAbbr l, strptimeDmy '-' l].any id

/-- Character class of `^[a-zA-Z0-9\-_/#]+$`. -/
def isInvoiceNumChar (c : Char) : Bool :=
  c.isAlpha || isAsciiDigit c || c = '-' || c = '_' || c = '/' || c = '#'

/-- Model of `DataValidator.validate_invoice_number` (validator.py lines 79–86). -/
def validate_invoice_number (v : Json) : Bool :=
  if !pyTruthy v then true
  else reDollarWrap (fun l => !l.isEmpty && l.all isInvoiceNumChar) (pyStr v).data

/-! ## Cross-field total-amount accuracy check -/

/-- Result of `DataValidator.validate_total_amount_accuracy`. -/
structure TotalValidation where
  valid : Bool
  warnings : List String
  recommendations : List String
  deriving DecidableEq, Repr

/-- Conversion at validator.py lines 144–149: `float(re.sub(r'[^\d.-]', '', v))`
for strings, `float(v)` otherwise; `ValueError`/`TypeError` are caught by the
surrounding `continue`, modelled as `none`. -/
def floatOfValue? : Json → Option Frac
  | .str s => pyFloatFrac? (keepNumChars s)
  | .num q => some q
  | .bool b => some (Frac.ofInt (if b then 1 else 0))
  | _ => none

/-- Model of `DataValidator.validate_total_amount_accuracy` (validator.py lines
127–214). The only uncaught exception inside it is the `ZeroDivisionError`
of line 203 (second-highest amount equal to 0), surfaced as `.error`. -/
def validate_total_amount_accuracy (data : List (String × Json)) (user_prompt : String) :
    Except String TotalValidation :=
  let r0 : TotalValidation := ⟨true, [], []⟩
  let pl := pyLower user_prompt
  if !(["total", "amount", "cost"].any (fun t => pyIn t pl)) then .ok r0
  else
    let cats := data.foldl
      (fun (acc : List (String × Frac) × List (String × Frac) × List (String × Frac)) kv =>
        let kl := pyLower kv.1
        if ["amount", "total", "cost", "price", "worth"].any (fun t => pyIn t kl) then
          match floatOfValue? kv.2 with
          | none => acc
          | some q =>
            if ["taxable", "net_worth", "net_amount"].any (fun t => pyIn t kl) then
              (acc.1, acc.2.1 ++ [(kv.1, q)], acc.2.2)
            else if ["total", "grand", "final", "gross_worth", "gross_total"].any
                (fun t => pyIn t kl) then
              (acc.1 ++ [(kv.1, q)], acc.2.1, acc.2.2)
            else (acc.1, acc.2.1, acc.2.2 ++ [(kv.1, q)])
        else acc)
      ([], [], [])
    let total_fields := cats.1
    let taxable_fields := cats.2.1
    let other_amount_fields := cats.2.2
    let r1 :=
      match total_fields, taxable_fields with
      | t :: ts, x :: xs =>
          let max_total := Frac.maxList t.2 (ts.map (fun kv => kv.2))
          let max_taxable := Frac.maxList x.2 (xs.map (fun kv => kv.2))
          if Frac.blt max_total max_taxable then
            { r0 with
              valid := false,
              warnings := ["ERROR: Extracted 'total' (" ++ fmtFrac max_total ++
                ") is less than taxable value (" ++ fmtFrac max_taxable ++
                "). This suggests the wrong amount was extracted as 'total'."],
              recommendations := ["The system may have extracted 'Net Worth' or " ++
                "'Taxable Value' instead of 'Gross Total'. Look for the final amount " ++
                "that includes all taxes."] }
          else if Frac.beq max_taxable max_total then
            { r0 with warnings := ["Warning: Total amount (" ++ fmtFrac max_total ++
              ") equals taxable value. Check if taxes are included in the total."] }
          else r0
      | [], _ :: _ =>
          { r0 with
            warnings := ["Only taxable/net amounts found. The final total " ++
              "(including taxes) may be missing."],
            recommendations := ["Look for 'Gross Total', 'Grand Total', or " ++
              "'Final Amount' which includes all taxes."] }
      | _, [] => r0
    let all_amounts := total_fields ++ taxable_fields ++ other_amount_fields
    if all_amounts.length > 1 then
      let amounts_list := sortDesc (all_amounts.map (fun kv => kv.2))
      match amounts_list with
      | highest :: second_highest :: _ =>
          if second_highest.num = 0 then .error "float division by zero"
          else
            let difference_percent :=
              Frac.mul (Frac.div (Frac.sub highest second_highest) second_highest)
                (Frac.ofInt 100)
            if [10, 15, 18, 20, 25].any
                (fun rate =>
                  Frac.blt (Frac.abs (Frac.sub difference_percent (Frac.ofInt rate)))
                    (Frac.ofInt 1)) then
              .ok { r1 with recommendations := r1.recommendations ++
                ["The amounts suggest a " ++ fmtFrac difference_percent ++
                 "% tax rate. Ensure the higher amount (" ++ fmtFrac highest ++
                 ") is extracted as the total."] }
            else .ok r1
      | _ => .ok r1
    else .ok r1

/-! ## Missing-field check -/

/-- The keyword table local to `DataValidator.validate_required_fields`
(validator.py lines 95–101). -/
def requiredFieldKeywords : List (String × List String) :=
  [("invoice_number", ["invoice number", "invoice #", "invoice id"]),
   ("total_amount", ["total", "amount", "total amount", "grand total", "final total",
                     "total cost", "gross total", "gross worth"]),
   ("vendor_name", ["vendor", "supplier", "company", "from", "sold by"]),
   ("date", ["date", "invoice date", "due date"]),
   ("customer_name", ["customer", "client", "to", "bill to"])]

/-- Model of `DataValidator.validate_required_fields` (validator.py lines 88–125). -/
def validate_required_fields (data : List (String × Json)) (user_prompt : String) :
    List String :=
  let pl := pyLower user_prompt
  requiredFieldKeywords.foldl
    (fun missing fkw =>
      if fkw.2.any (fun kw => pyIn kw pl) then
        let found := data.any (fun kv =>
          let kl := pyLower kv.1
          if fkw.1 = "total_amount" then
            fkw.2.any (fun kw => pyIn (pyReplace kw " " "_") kl) &&
              !(["taxable", "net_worth", "net_amount"].any (fun t => pyIn t kl))
          else
            fkw.2.any (fun kw => pyIn (pyReplace kw " " "_") kl))
        if found then missing else missing ++ [fkw.1]
      else missing)
    []

/-! ## `validate_extraction` -/

/-- One entry of `field_validations`. -/
structure FieldValidation where
  valid : Bool
  message : String
  deriving DecidableEq, Repr

/-- The `summary` block added at validator.py lines 322–328. -/
structure Summary where
  total_fields : Nat
  valid_fields : Nat
  error_count : Nat
  warning_count : Nat
  recommendation_count : Nat
  deriving DecidableEq, Repr

/-- The report built by `validate_extraction`. `summary` is an `Option`
because the code's early `return`s and its catch-all handler return the
report without ever adding the `summary` key. -/
structure ValidationReport where
  is_valid : Bool
  errors : List String
  warnings : List String
  recommendations : List String
  field_validations : List (String × FieldValidation)
  summary : Option Summary
  deriving DecidableEq, Repr

/-- What one iteration of the per-field loop of `validate_extraction`
(validator.py lines 243–310) appends to the report: new errors, new
warnings, the `field_validation` entry, and whether `is_valid` was set to
`False` (only the CRITICAL-ERROR branch does that directly). -/
structure FieldDelta where
  errs : List String
  warns : List String
  fv : FieldValidation
  invalid : Bool
  deriving DecidableEq, Repr

/-- The conversion at validator.py line 277:
`float(field_value) if isinstance(field_value, (int, float)) else
float(re.sub(r'[^\d.-]', '', str(field_value)))`, with
`ValueError`/`TypeError` caught by the surrounding `pass` (`none`).
Python `bool` is a subclass of `int`. -/
def floatForEnhanced? : Json → Option Frac
  | .num q => some q
  | .bool b => some (Frac.ofInt (if b then 1 else 0))
  | v => pyFloatFrac? (keepNumChars (pyStr v))

/-- The body of one iteration of the per-field loop (validator.py lines
243–310), as the delta it applies to the report. The only exception that
can escape an iteration is `validate_email`'s `TypeError`. -/
def checkField (user_prompt : String) (field_name : String) (field_value : Json) :
    Except String FieldDelta :=
  if field_value.isNull then
    .ok ⟨[], [], ⟨true, "Field is null"⟩, false⟩
  else
    let fl := pyLower field_name
    if pyIn "email" fl then
      match validate_email field_value with
      | .error e => .error e
      | .ok true => .ok ⟨[], [], ⟨true, ""⟩, false⟩
      | .ok false =>
          .ok ⟨["Invalid email format for " ++ field_name], [],
               ⟨false, "Invalid email format"⟩, false⟩
    else if pyIn "phone" fl || pyIn "tel" fl then
      if validate_phone field_value then .ok ⟨[], [], ⟨true, ""⟩, false⟩
      else .ok ⟨[], ["Questionable phone format for " ++ field_name],
                ⟨false, "Invalid phone format"⟩, false⟩
    else if ["amount", "total", "price", "cost", "subtotal", "tax", "worth"].any
        (fun kw => pyIn kw fl) then
      if !validate_amount field_value then
        .ok ⟨["Invalid amount format for " ++ field_name], [],
             ⟨false, "Invalid amount format"⟩, false⟩
      else
        match floatForEnhanced? field_value with
        | none => .ok ⟨[], [], ⟨true, ""⟩, false⟩
        | some numeric_value =>
          if ["total", "total amount", "total cost"].any
              (fun t => pyIn t (pyLower user_prompt)) then
            if ["taxable", "net_worth", "net_amount"].any (fun t => pyIn t fl) then
              .ok ⟨["CRITICAL ERROR: '" ++ field_name ++
                    "' appears to be a pre-tax amount ($" ++ fmtFrac numeric_value ++
                    "), but user requested total amount. Look for 'Gross Total' " ++
                    "or 'Grand Total' instead."], [], ⟨true, ""⟩, true⟩
            else if ["total", "grand", "final", "gross"].any (fun t => pyIn t fl) then
              .ok ⟨[], [], ⟨true, "Correctly identified as final total: $" ++
                    fmtFrac numeric_value⟩, false⟩
            else .ok ⟨[], [], ⟨true, ""⟩, false⟩
          else .ok ⟨[], [], ⟨true, ""⟩, false⟩
    else if pyIn "date" fl then
      if validate_date field_value then .ok ⟨[], [], ⟨true, ""⟩, false⟩
      else .ok ⟨[], ["Questionable date format for " ++ field_name],
                ⟨false, "Invalid date format"⟩, false⟩
    else if pyIn "invoice" fl && pyIn "number" fl then
      if validate_invoice_number field_value then .ok ⟨[], [], ⟨true, ""⟩, false⟩
      else .ok ⟨[], ["Questionable invoice number format for " ++ field_name],
                ⟨false, "Invalid invoice number format"⟩, false⟩
    else .ok ⟨[], [], ⟨true, ""⟩, false⟩

/-- Apply a `FieldDelta` to the report (the list mutations of the loop body
plus `field_validations[field_name] = field_validation`). -/
def applyDelta (vr : ValidationReport) (field_name : String) (d : FieldDelta) :
    ValidationReport :=
  { vr with
    errors := vr.errors ++ d.errs,
    warnings := vr.warnings ++ d.warns,
    is_valid := vr.is_valid && !d.invalid,
    field_validations := dictInsert vr.field_validations field_name d.fv }

/-- The per-field loop: stops at the first escaping exception, keeping the
mutations already applied (exactly what the `try`/`except` of
`validate_extraction` observes). -/
def runFieldChecks (user_prompt : String) (vr : ValidationReport) :
    List (String × Json) → ValidationReport × Option String
  | [] => (vr, none)
  | kv :: rest =>
      match checkField user_prompt kv.1 kv.2 with
      | .ok d => runFieldChecks user_prompt (applyDelta vr kv.1 d) rest
      | .error e => (vr, some e)

/-- Model of `validate_extraction` (validator.py lines 217–337). The `try`/`except`
catch-all is modelled by the two explicit exception sources: the
`ZeroDivisionError` inside `validate_total_amount_accuracy` and the
`TypeError` from `validate_email`; both paths append a
`"Validation error: ..."` error, set `is_valid` to `False` and return the
report without a `summary`. -/
def validate_extraction (extracted_data : List (String × Json)) (user_prompt : String) :
    ValidationReport :=
  let vr0 : ValidationReport := ⟨true, [], [], [], [], none⟩
  if extracted_data.isEmpty then
    { vr0 with is_valid := false, errors := ["No data extracted from invoice"] }
  else
    match validate_total_amount_accuracy extracted_data user_prompt with
    | .error e => { vr0 with is_valid := false, errors := ["Validation error: " ++ e] }
    | .ok tv =>
      let vr1 := { vr0 with
        warnings := tv.warnings,
        recommendations := tv.recommendations,
        is_valid := tv.valid }
      match runFieldChecks user_prompt vr1 extracted_data with
      | (vr2, some e) =>
          { vr2 with is_valid := false, errors := vr2.errors ++ ["Validation error: " ++ e] }
      | (vr2, none) =>
          let missing := validate_required_fields extracted_data user_prompt
          let vr3 := { vr2 with
            warnings := vr2.warnings ++ missing.map (fun f => "Possibly missing field: " ++ f) }
          let vr4 := if vr3.errors.isEmpty then vr3 else { vr3 with is_valid := false }
          { vr4 with summary := some ⟨extracted_data.length,
              (vr4.field_validations.filter (fun kv => kv.2.valid)).length,
              vr4.errors.length, vr4.warnings.length, vr4.recommendations.length⟩ }

/-- The internal exception (if any) that `validate_extraction`'s catch-all
would see for the given input: the division-by-zero of the cross-field
check, or the first `TypeError` escaping the per-field loop. -/
def validationException (extracted_data : List (String × Json)) (user_prompt : String) :
    Option String :=
  if extracted_data.isEmpty then none
  else
    match validate_total_amount_accuracy extracted_data user_prompt with
    | .error e => some e
    | .ok tv =>
        (runFieldChecks user_prompt
          ⟨tv.valid, [], tv.warnings, tv.recommendations, [], none⟩ extracted_data).2

/-! ## Strict JSON parsing (`json.loads`) -/

/-- JSON inter-token whitespace. -/
def isJsonWs (c : Char) : Bool := c = ' ' || c = '\t' || c = '\n' || c = '\r'

/-- Skip JSON whitespace. -/
def skipJsonWs (l : List Char) : List Char := l.dropWhile isJsonWs

/-- Hex digit value. -/
def hexVal? (c : Char) : Option Nat :=
  if isAsciiDigit c then some (c.toNat - 48)
  else if 'a' ≤ c && c ≤ 'f' then some (c.toNat - 87)
  else if 'A' ≤ c && c ≤ 'F' then some (c.toNat - 55)
  else none

/-- JSON escape characters. -/
def escChar? : Char → Option Char
  | '"' => some '"'
  | '\\' => some '\\'
  | '/' => some '/'
  | 'b' => some '\x08'
  | 'f' => some '\x0c'
  | 'n' => some '\n'
  | 'r' => some '\r'
  | 't' => some '\t'
  | _ => none

/-- JSON string body, after the opening quote: returns (content, rest after
the closing quote). Strict mode: raw control characters are rejected.
(Surrogate-pair `\u` escapes are not recombined; no input here uses them.) -/
def jsonStringRest : Nat → List Char → Option (List Char × List Char)
  | 0, _ => none
  | _ + 1, [] => none
  | fuel + 1, c :: rest =>
      if c = '"' then some ([], rest)
      else if c = '\\' then
        match rest with
        | [] => none
        | e :: r2 =>
          if e = 'u' then
            match r2 with
            | a :: b :: c2 :: d :: r3 =>
                match hexVal? a, hexVal? b, hexVal? c2, hexVal? d with
                | some ha, some hb, some hc, some hd =>
                    (jsonStringRest fuel r3).map
                      (fun p => (Char.ofNat (((ha * 16 + hb) * 16 + hc) * 16 + hd) :: p.1, p.2))
                | _, _, _, _ => none
            | _ => none
          else
            match escChar? e with
            | some ec => (jsonStringRest fuel r2).map (fun p => (ec :: p.1, p.2))
            | none => none
      else if c.toNat < 32 then none
      else (jsonStringRest fuel rest).map (fun p => (c :: p.1, p.2))

/-- JSON number token, per `json`'s `NUMBER_RE`
`(-?(?:0|[1-9]\d*))(\.\d+)?([eE][-+]?\d+)?`: the longest match is taken and
anything beyond it (e.g. a bare trailing `.`) is left for the caller. -/
def jsonNumber? (l : List Char) : Option (Frac × List Char) :=
  let (neg, r1) :=
    match l with
    | '-' :: r => (true, r)
    | r => (false, r)
  match r1 with
  | [] => none
  | c :: _ =>
    if !isAsciiDigit c then none
    else
      let ipLen := if c = '0' then 1 else (r1.takeWhile isAsciiDigit).length
      let ip := r1.take ipLen
      let r2 := r1.drop ipLen
      let fracStep :=
        match r2 with
        | '.' :: rr =>
            let fd := rr.takeWhile isAsciiDigit
            if fd.isEmpty then (([] : List Char), r2) else (fd, rr.drop fd.length)
        | _ => ([], r2)
      let fd := fracStep.1
      let r3 := fracStep.2
      let expStep :=
        match r3 with
        | e :: rr =>
            if e = 'e' || e = 'E' then
              let (esign, rr2) :=
                match rr with
                | '+' :: z => ((1 : Int), z)
                | '-' :: z => ((-1 : Int), z)
                | z => ((1 : Int), z)
              let ed := rr2.takeWhile isAsciiDigit
              if ed.isEmpty then ((none : Option Int), r3)
              else (some (esign * (digitsVal ed : Int)), rr2.drop ed.length)
            else ((none : Option Int), r3)
        | [] => ((none : Option Int), r3)
      let mantissa : Int := (if neg then -1 else 1) * (digitsVal (ip ++ fd) : Int)
      let den0 : Nat := 10 ^ fd.length
      let q : Frac :=
        match expStep.1 with
        | none => ⟨mantissa, den0⟩
        | some e =>
            if 0 ≤ e then ⟨mantissa * ((10 : Int) ^ e.toNat), den0⟩
            else ⟨mantissa, den0 * 10 ^ (-e).toNat⟩
      some (q, expStep.2)

mutual

/-- One JSON value (after optional leading whitespace), with the unconsumed
rest. Fueled recursion; the fuel supplied by `jsonLoads` always suffices. -/
def jsonValue : Nat → List Char → Option (Json × List Char)
  | 0, _ => none
  | fuel + 1, l0 =>
    match skipJsonWs l0 with
    | [] => none
    | '{' :: rest => jsonObjStart fuel rest
    | '[' :: rest => jsonArrStart fuel rest
    | '"' :: rest =>
        (jsonStringRest (rest.length + 1) rest).map
          (fun p => (Json.str (String.mk p.1), p.2))
    | 't' :: rest =>
        if startsWithChars ['r', 'u', 'e'] rest then some (Json.bool true, rest.drop 3)
        else none
    | 'f' :: rest =>
        if startsWithChars ['a', 'l', 's', 'e'] rest then some (Json.bool false, rest.drop 4)
        else none
    | 'n' :: rest =>
        if startsWithChars ['u', 'l', 'l'] rest then some (Json.null, rest.drop 3)
        else none
    | l => (jsonNumber? l).map (fun p => (Json.num p.1, p.2))

/-- Object body right after `{`: empty object or first member. -/
def jsonObjStart : Nat → List Char → Option (Json × List Char)
  | 0, _ => none
  | fuel + 1, l =>
    match skipJsonWs l with
    | '}' :: rest => some (Json.obj [], rest)
    | l2 => jsonObjMember fuel l2 []

/-- One `"key" : value` member followed by `,` (next member) or `}` (end).
Duplicate keys behave like repeated dict assignment (`dictInsert`). -/
def jsonObjMember : Nat → List Char → List (String × Json) → Option (Json × List Char)
  | 0, _, _ => none
  | fuel + 1, l, acc =>
    match skipJsonWs l with
    | '"' :: rest =>
      match jsonStringRest (rest.length + 1) rest with
      | none => none
      | some (kcs, r2) =>
        match skipJsonWs r2 with
        | ':' :: r3 =>
          match jsonValue fuel r3 with
          | none => none
          | some (v, r4) =>
            let acc2 := dictInsert acc (String.mk kcs) v
            match skipJsonWs r4 with
            | ',' :: r5 => jsonObjMember fuel r5 acc2
            | '}' :: r5 => some (Json.obj acc2, r5)
            | _ => none
        | _ => none
    | _ => none

/-- Array body right after `[`: empty array or first element. -/
def jsonArrStart : Nat → List Char → Option (Json × List Char)
  | 0, _ => none
  | fuel + 1, l =>
    match skipJsonWs l with
    | ']' :: rest => some (Json.arr [], rest)
    | l2 => jsonArrItem fuel l2 []

/-- One array element followed by `,` (next element) or `]` (end). -/
def jsonArrItem : Nat → List Char → List Json → Option (Json × List Char)
  | 0, _, _ => none
  | fuel + 1, l, acc =>
    match jsonValue fuel l with
    | none => none
    | some (v, r) =>
      match skipJsonWs r with
      | ',' :: r2 => jsonArrItem fuel r2 (v :: acc)
      | ']' :: r2 => some (Json.arr (v :: acc).reverse, r2)
      | _ => none

end

/-- Model of `json.loads`: parse one value and require only whitespace after it
(`Extra data` otherwise). `NaN`/`Infinity` literals are not modelled (they
are floating-point specials outside the `Frac` embedding; no input here
uses them). -/
def jsonLoads (s : String) : Option Json :=
  match jsonValue (s.data.length * 2 + 8) s.data with
  | some (v, rest) => if (skipJsonWs rest).isEmpty then some v else none
  | none => none

/-! ## JSON repair (`InvoiceParser.fix_common_json_issues`) -/

/-- Split at the first occurrence of a character: `(before, after)`,
excluding the character itself. -/
def splitAtChar (c : Char) : List Char → Option (List Char × List Char)
  | [] => none
  | x :: xs =>
      if x = c then some ([], xs)
      else (splitAtChar c xs).map (fun p => (x :: p.1, p.2))

/-- Model of `re.sub(r',(\s*[}\]])', r'\1', s)`: drop a comma followed by optional
whitespace and a closing bracket. The classes `\s` and `[}\]]` are disjoint,
so the left-to-right scan below is exactly the regex's match sequence. -/
def fixTrailingCommas : Nat → List Char → List Char
  | 0, l => l
  | _ + 1, [] => []
  | fuel + 1, c :: rest =>
      if c = ',' then
        let ws := rest.takeWhile isPySpace
        match rest.drop ws.length with
        | b :: tail =>
            if b = '}' || b = ']' then ws ++ b :: fixTrailingCommas fuel tail
            else c :: fixTrailingCommas fuel rest
        | [] => c :: fixTrailingCommas fuel rest
      else c :: fixTrailingCommas fuel rest

/-- Model of `re.sub(r"'([^']*)':", r'"\1":', s)`: single-quoted text directly
followed by a colon becomes double-quoted. -/
def fixSingleQuoteKeys : Nat → List Char → List Char
  | 0, l => l
  | _ + 1, [] => []
  | fuel + 1, c :: rest =>
      if c = '\'' then
        match splitAtChar '\'' rest with
        | some (mid, after) =>
            match after with
            | ':' :: tail =>
                '"' :: mid ++ '"' :: ':' :: fixSingleQuoteKeys fuel tail
            | _ => c :: fixSingleQuoteKeys fuel rest
        | none => c :: fixSingleQuoteKeys fuel rest
      else c :: fixSingleQuoteKeys fuel rest

/-- Model of `re.sub(r":\s*'([^']*)'", r': "\1"', s)`: a colon, optional whitespace
and a single-quoted value become `: "value"`. -/
def fixSingleQuoteValues : Nat → List Char → List Char
  | 0, l => l
  | _ + 1, [] => []
  | fuel + 1, c :: rest =>
      if c = ':' then
        let ws := rest.takeWhile isPySpace
        match rest.drop ws.length with
        | q :: r3 =>
            if q = '\'' then
              match splitAtChar '\'' r3 with
              | some (mid, after) =>
                  ':' :: ' ' :: '"' :: mid ++ '"' :: fixSingleQuoteValues fuel after
              | none => c :: fixSingleQuoteValues fuel rest
            else c :: fixSingleQuoteValues fuel rest
        | [] => c :: fixSingleQuoteValues fuel rest
      else c :: fixSingleQuoteValues fuel rest

/-- Model of `\w` of the bare-key pattern. -/
def isWordChar (c : Char) : Bool := c.isAlpha || isAsciiDigit c || c = '_'

/-- Model of `re.sub(r'(\w+):', r'"\1":', s)`: quote a word-character run directly
followed by a colon (only the maximal run can match, since a shorter one
ends in a word character, not `:`). -/
def fixBareKeys : Nat → List Char → List Char
  | 0, l => l
  | _ + 1, [] => []
  | fuel + 1, c :: rest =>
      if isWordChar c then
        let run := c :: rest.takeWhile isWordChar
        match rest.drop (run.length - 1) with
        | ':' :: tail => '"' :: run ++ '"' :: ':' :: fixBareKeys fuel tail
        | _ => c :: fixBareKeys fuel rest
      else c :: fixBareKeys fuel rest

/-- Model of `InvoiceParser.fix_common_json_issues` (parser.py lines 281–293). -/
def fix_common_json_issues (json_str : String) : String :=
  let l1 := fixTrailingCommas (json_str.data.length + 1) json_str.data
  let l2 := fixSingleQuoteKeys (l1.length + 1) l1
  let l3 := fixSingleQuoteValues (l2.length + 1) l2
  String.mk (fixBareKeys (l3.length + 1) l3)

/-! ## `InvoiceParser.parse_llm_response` -/

/-- The line scan of parser.py lines 229–243: collect lines from the first
one containing `{` onward, tracking the running brace balance, and stop
after the line on which the balance returns to zero while containing `}`. -/
def scanBraceLines : List String → Bool → Int → List String → List String
  | [], _, _, acc => acc.reverse
  | line :: rest, in_json, brace, acc =>
      let in_json2 := in_json || containsChars ['{'] line.data
      if in_json2 then
        let acc2 := line :: acc
        let brace2 := brace + (countChar '{' line.data : Int) - (countChar '}' line.data : Int)
        if brace2 = 0 && containsChars ['}'] line.data then acc2.reverse
        else scanBraceLines rest true brace2 acc2
      else scanBraceLines rest false brace acc

/-- Model of `InvoiceParser.parse_llm_response` (parser.py lines 208–279). Returns
the parsed value or the escaping exception's message. Note that the repair
path (`return json.loads(fixed_json)`, line 273) returns whatever value the
repaired text parses to, with no mapping check. -/
def parse_llm_response (response : String) : Except String Json :=
  if response.data.isEmpty || (pyTrim response).data.isEmpty then
    .error "Empty response from LLM"
  else
    let cleaned0 := pyTrim response
    let cleaned :=
      if pyIn "```json" cleaned0 then
        pyTrim ((pySplit ((pySplit cleaned0 "```json").getD 1 "") "```").getD 0 "")
      else if pyIn "```" cleaned0 then
        let parts := pySplit cleaned0 "```"
        if parts.length ≥ 3 then pyTrim (parts.getD 1 "")
        else pyTrim (parts.getLastD "")
      else cleaned0
    let lines := pySplit cleaned "\n"
    let json_lines := scanBraceLines lines false 0 []
    let json_str :=
      if !json_lines.isEmpty then joinWith "\n" json_lines
      else
        match firstIdx '{' cleaned.data, lastIdx '}' cleaned.data with
        | some start_idx, some r_idx =>
            String.mk ((cleaned.data.drop start_idx).take (r_idx + 1 - start_idx))
        | _, _ => cleaned
    match jsonLoads json_str with
    | some v =>
        if v.isObj then .ok v
        else .error "Failed to parse LLM response: LLM response is not a JSON object"
    | none =>
        match jsonLoads (fix_common_json_issues cleaned) with
        | some v => .ok v
        | none => .error "Failed to parse LLM response as JSON"

/-! ## Helper lemmas -/

/-- A list whose `isEmpty` test is not `true` is not the empty list. -/
lemma ne_nil_of_not_isEmpty {α : Type} {l : List α} (h : ¬ (l.isEmpty = true)) : l ≠ [] := by
  cases l <;> simp_all

/-- Once the best-total slot is filled, no later key changes it (the inner
Python loop only assigns under `best_total_field is None`). -/
lemma findBestTotalStep_some (x : String × Json) (kv : String × Json) :
    findBestTotalStep (some x) kv = some x := by
  unfold findBestTotalStep
  cases h : totalPriority.find? (fun pf => pyIn pf (pyLower kv.1)) <;> simp [h]

/-- Folding the selection step over any tail keeps a filled best-total slot. -/
lemma foldl_findBestTotalStep_some (l : List (String × Json)) (x : String × Json) :
    l.foldl findBestTotalStep (some x) = some x := by
  induction l with
  | nil => rfl
  | cons kv t ih => rw [List.foldl_cons, findBestTotalStep_some]; exact ih

/-- With an empty best-total slot, one step fills it exactly when the key
avoids the exclusion list and contains a priority term; the generic
`'total'` fallback never fires because `"total"` is itself in the priority
list. -/
lemma findBestTotalStep_none (kv : String × Json) :
    findBestTotalStep none kv =
      (if !totalAvoidHit kv.1 && totalPriorityHit kv.1 then some kv else none) := by
  unfold findBestTotalStep totalAvoidHit totalPriorityHit
  by_cases ha : (["taxable", "net_worth", "net_amount", "subtotal"].any
      (fun t => pyIn t (pyLower kv.1))) = true
  · simp [ha]
  · rw [if_neg ha]
    cases hf : totalPriority.find? (fun pf => pyIn pf (pyLower kv.1)) with
    | some x =>
        have hx := List.find?_some hf
        have hmem := List.mem_of_find?_eq_some hf
        have hany : totalPriority.any (fun t => pyIn t (pyLower kv.1)) = true :=
          List.any_eq_true.mpr ⟨x, hmem, hx⟩
        simp [ha, hany]
    | none =>
        have hnot : ∀ t ∈ totalPriority, ¬ (pyIn t (pyLower kv.1) = true) := by
          intro t ht
          exact List.find?_eq_none.mp hf t ht
        have hany : totalPriority.any (fun t => pyIn t (pyLower kv.1)) = false := by
          rw [List.any_eq_false]
          exact hnot
        have htotal : pyIn "total" (pyLower kv.1) = false := by
          have := hnot "total" (by simp [totalPriority])
          simpa using this
        simp [ha, hany, htotal]

/-- If the request contains one of the all-indicators and the short-request
override of `analyze_user_request` cannot fire (some field category matched,
or the request has more than five words), the extraction mode is `"all"`. -/
lemma analyze_extraction_type_all (p : String)
    (h1 : (["all", "everything", "complete"].any (fun t => pyIn t (pyLower p))) = true)
    (h2 : (analyze_user_request p).requested_fields ≠ [] ∨ 5 < (pySplitWs p).length) :
    (analyze_user_request p).extraction_type = "all" := by
  have h5 : (["all", "everything", "complete", "full", "entire"].any
      (fun t => pyIn t (pyLower p))) = true := by
    rcases List.any_eq_true.mp h1 with ⟨x, hx, hpx⟩
    refine List.any_eq_true.mpr ⟨x, ?_, hpx⟩
    simp only [List.mem_cons, List.not_mem_nil, or_false] at hx
    rcases hx with rfl | rfl | rfl <;> simp
  unfold analyze_user_request at h2 ⊢
  simp only [] at h2 ⊢
  split
  · next hC =>
      rw [if_pos hC] at h2
      split
      · next hg =>
          rw [if_pos hg] at h2
          rw [Bool.and_eq_true, decide_eq_true_iff] at hg
          rcases h2 with h2 | h2
          · exact absurd (List.isEmpty_iff.mp hg.1) h2
          · omega
      · next hg => simp [h5]
  · next hC =>
      rw [if_neg hC] at h2
      split
      · next hg =>
          rw [if_pos hg] at h2
          rw [Bool.and_eq_true, decide_eq_true_iff] at hg
          rcases h2 with h2 | h2
          · exact absurd (List.isEmpty_iff.mp hg.1) h2
          · omega
      · next hg => simp [h5]

set_option maxHeartbeats 1600000 in
/-- The only branch of the per-field loop body that sets `is_valid` to
`False` (the CRITICAL-ERROR branch) also appends an error message. -/
lemma checkField_invalid_errs (p n : String) (v : Json) (d : FieldDelta)
    (hok : checkField p n v = .ok d) (hInv : d.invalid = true) : d.errs ≠ [] := by
  unfold checkField at hok
  simp only [] at hok
  repeat' split at hok
  all_goals
    first
      | exact (Except.noConfusion hok)
      | (injection hok with h; subst h;
         first
           | exact List.cons_ne_nil _ _
           | exact Bool.noConfusion hInv)

/-- The per-field loop never touches the `summary` field. -/
lemma runFieldChecks_summary (p : String) :
    ∀ (l : List (String × Json)) (vr : ValidationReport),
      (runFieldChecks p vr l).1.summary = vr.summary := by
  intro l
  induction l with
  | nil => intro vr; rfl
  | cons kv t ih =>
      intro vr
      unfold runFieldChecks
      cases h : checkField p kv.1 kv.2 with
      | ok d =>
          have := ih (applyDelta vr kv.1 d)
          simpa [applyDelta] using this
      | error e => rfl

/-- Equation form of `runFieldChecks_summary`. -/
lemma runFieldChecks_summary2 (p : String) (l : List (String × Json))
    (vr vr2 : ValidationReport) (exc : Option String)
    (hrun : runFieldChecks p vr l = (vr2, exc)) : vr2.summary = vr.summary := by
  have h := runFieldChecks_summary p l vr
  rw [hrun] at h
  exact h

/-- The exception produced by the per-field loop does not depend on the
report it is threaded through (the loop body never reads the report). -/
lemma runFieldChecks_exc_indep (p : String) :
    ∀ (l : List (String × Json)) (vr vr' : ValidationReport),
      (runFieldChecks p vr l).2 = (runFieldChecks p vr' l).2 := by
  intro l
  induction l with
  | nil => intro vr vr'; rfl
  | cons kv t ih =>
      intro vr vr'
      unfold runFieldChecks
      cases h : checkField p kv.1 kv.2 with
      | ok d => exact ih (applyDelta vr kv.1 d) (applyDelta vr' kv.1 d)
      | error e => rfl

/-- Invariant of the per-field loop: errors only grow, `is_valid` can only
be cleared, and clearing it is always accompanied by a new error. -/
lemma runFieldChecks_inv (p : String) :
    ∀ (l : List (String × Json)) (vr : ValidationReport),
      ∃ es, (runFieldChecks p vr l).1.errors = vr.errors ++ es ∧
        ((runFieldChecks p vr l).1.is_valid = false → vr.is_valid = false ∨ es ≠ []) ∧
        (vr.is_valid = false → (runFieldChecks p vr l).1.is_valid = false) := by
  intro l
  induction l with
  | nil =>
      intro vr
      exact ⟨[], by simp [runFieldChecks], fun h => Or.inl h,
        fun h => by simpa [runFieldChecks] using h⟩
  | cons kv t ih =>
      intro vr
      unfold runFieldChecks
      cases hcf : checkField p kv.1 kv.2 with
      | error e => exact ⟨[], by simp, fun h => Or.inl h, fun h => h⟩
      | ok d =>
          obtain ⟨es, he, hiv, hmono⟩ := ih (applyDelta vr kv.1 d)
          refine ⟨d.errs ++ es, ?_, ?_, ?_⟩
          · rw [he]; simp [applyDelta]
          · intro hfalse
            rcases hiv hfalse with h1 | h2
            · simp only [applyDelta, Bool.and_eq_false_iff] at h1
              rcases h1 with hv | hi
              · exact Or.inl hv
              · have hne := checkField_invalid_errs p kv.1 kv.2 d hcf (by simpa using hi)
                exact Or.inr (by simp [hne])
            · exact Or.inr (by simp [h2])
          · intro hv
            exact hmono (by simp [applyDelta, hv])

/-- Equation form of `runFieldChecks_inv`. -/
lemma runFieldChecks_inv2 (p : String) (l : List (String × Json))
    (vr vr2 : ValidationReport) (exc : Option String)
    (hrun : runFieldChecks p vr l = (vr2, exc)) :
    ∃ es, vr2.errors = vr.errors ++ es ∧
      (vr2.is_valid = false → vr.is_valid = false ∨ es ≠ []) ∧
      (vr.is_valid = false → vr2.is_valid = false) := by
  have h := runFieldChecks_inv p l vr
  rw [hrun] at h
  exact h

/-! ## Claim theorems -/

/-- C1: for the request "Extract the invoice number and total." and the raw
mapping with invoice_number INV-001, net_worth 192.81, vat 19.28 and
gross_worth 212.09, `filter_extracted_data` returns exactly the pairs for
gross_worth and invoice_number, excluding net_worth and vat. -/
theorem claim_C1 :
    filter_extracted_data
      [("invoice_number", Json.str "INV-001"), ("net_worth", Json.num ⟨19281, 100⟩),
       ("vat", Json.num ⟨1928, 100⟩), ("gross_worth", Json.num ⟨21209, 100⟩)]
      "Extract the invoice number and total." =
      [("gross_worth", Json.num ⟨21209, 100⟩), ("invoice_number", Json.str "INV-001")] := by
  rfl

/-- C2, counterexample: on the mapping with 'total' before 'gross_total' and
the request "total", the filter keeps BOTH pairs (not exactly one), and the
selected best-total candidate is the 'total' pair, not the 'gross_total'
pair — refuting both the "exactly one pair" part and the "gross_total
regardless of mapping order" part of the claim. -/
theorem claim_C2_counterexample :
    filter_extracted_data
        [("total", Json.num ⟨100, 1⟩), ("gross_total", Json.num ⟨120, 1⟩)] "total" =
      [("total", Json.num ⟨100, 1⟩), ("gross_total", Json.num ⟨120, 1⟩)] ∧
    findBestTotal [("total", Json.num ⟨100, 1⟩), ("gross_total", Json.num ⟨120, 1⟩)] =
      some ("total", Json.num ⟨100, 1⟩) ∧
    filter_extracted_data
        [("total", Json.num ⟨100, 1⟩), ("gross_total", Json.num ⟨120, 1⟩)] "total" ≠
      [("gross_total", Json.num ⟨120, 1⟩)] := by
  refine ⟨rfl, rfl, ?_⟩
  intro h
  rw [show filter_extracted_data
      [("total", Json.num ⟨100, 1⟩), ("gross_total", Json.num ⟨120, 1⟩)] "total" =
      [("total", Json.num ⟨100, 1⟩), ("gross_total", Json.num ⟨120, 1⟩)] from rfl] at h
  exact absurd (congrArg List.length h) (by decide)

/-- C2, amended: the best-total selection of `filter_extracted_data` picks
the FIRST key in the mapping's iteration order (not in priority order) that
does not contain taxable/net_worth/net_amount/subtotal and contains at
least one entry of the priority list; the priority list acts only as a
membership test, and the selected pair may be accompanied in the filter's
output by further total-like keys kept by the generic keyword matching. -/
theorem claim_C2_amended :
    ∀ d : List (String × Json),
      findBestTotal d =
        d.find? (fun kv => !totalAvoidHit kv.1 && totalPriorityHit kv.1) := by
  intro d
  unfold findBestTotal
  induction d with
  | nil => rfl
  | cons kv t ih =>
      rw [List.foldl_cons, findBestTotalStep_none]
      by_cases hp : (!totalAvoidHit kv.1 && totalPriorityHit kv.1) = true
      · rw [if_pos hp, foldl_findBestTotalStep_some]
        exact (List.find?_cons_of_pos t hp).symm
      · rw [if_neg hp]
        rw [List.find?_cons_of_neg t (by simpa using hp)]
        exact ih

/-- C3, counterexample: for the request "total" and the mapping with only
taxable_value 200.0, `validate_extraction` does NOT emit the
"final total may be missing" warning, and `is_valid` is false, not true. -/
theorem claim_C3_counterexample :
    (validate_extraction [("taxable_value", Json.num ⟨200, 1⟩)] "total").is_valid = false ∧
    ((validate_extraction [("taxable_value", Json.num ⟨200, 1⟩)] "total").warnings.contains
      "Only taxable/net amounts found. The final total (including taxes) may be missing.")
      = false := by
  exact ⟨rfl, rfl⟩

/-- C3, amended: for the request "total" and the mapping containing only
taxable_value 200.0, the cross-field check classifies no field as an amount
(the key 'taxable_value' contains none of amount/total/cost/price/worth), so
the missing-final-total warning is not emitted; instead the per-field check
flags one CRITICAL pre-tax error, `is_valid` is false, and the only warnings
are the two possibly-missing-field notices. -/
theorem claim_C3_amended :
    (validate_extraction [("taxable_value", Json.num ⟨200, 1⟩)] "total").is_valid = false ∧
    (validate_extraction [("taxable_value", Json.num ⟨200, 1⟩)] "total").errors.length = 1 ∧
    (validate_extraction [("taxable_value", Json.num ⟨200, 1⟩)] "total").warnings =
      ["Possibly missing field: total_amount", "Possibly missing field: customer_name"] := by
  exact ⟨rfl, rfl, rfl⟩

/-- C4, counterexample: for the mapping with total 100.0 and net_worth 150.0
and the request "amount", `validate_extraction` returns `is_valid = false`
while its errors list is empty (the cross-field inversion is recorded only
as a warning) — refuting the claimed iff. -/
theorem claim_C4_counterexample :
    (validate_extraction
      [("total", Json.num ⟨100, 1⟩), ("net_worth", Json.num ⟨150, 1⟩)] "amount").is_valid
      = false ∧
    (validate_extraction
      [("total", Json.num ⟨100, 1⟩), ("net_worth", Json.num ⟨150, 1⟩)] "amount").errors
      = [] := by
  exact ⟨rfl, rfl⟩

/-- C4, amended: `validate_extraction` returns `is_valid = false` iff its
errors list is non-empty OR the cross-field total-amount accuracy check
reported invalid (that check records its inversion message under warnings,
not errors). -/
theorem claim_C4_amended :
    ∀ (data : List (String × Json)) (prompt : String),
      (validate_extraction data prompt).is_valid = false ↔
        ((validate_extraction data prompt).errors ≠ [] ∨
          ∃ tv, validate_total_amount_accuracy data prompt = Except.ok tv ∧
            tv.valid = false) := by
  intro data prompt
  unfold validate_extraction
  split
  · simp
  · next hemp =>
    split
    · next e heq => simp [heq]
    · next tv heq =>
      simp only []
      split
      · next vr2 e hrun => simp [heq]
      · next vr2 hrun =>
        obtain ⟨es, he, hiv, hmono⟩ := runFieldChecks_inv2 prompt data _ _ _ hrun
        dsimp only at he hiv hmono ⊢
        rw [List.nil_append] at he
        by_cases hE : vr2.errors = []
        · rw [hE] at he
          subst he
          simp only [heq, hE, List.isEmpty_nil, if_true, List.append_nil]
          constructor
          · intro hfalse
            rcases hiv hfalse with h1 | h2
            · exact Or.inr ⟨tv, rfl, h1⟩
            · exact absurd rfl h2
          · rintro (h | ⟨tv', htv', hval⟩)
            · exact absurd rfl h
            · injection htv' with h'
              subst h'
              exact hmono hval
        · have hEb : vr2.errors.isEmpty = false := by
            cases hc : vr2.errors with
            | nil => exact absurd hc hE
            | cons a t => rfl
          simp [heq, hEb, hE]

/-- C5, counterexample: for the request "all" (which contains an
all-indicator) and a two-field mapping, the filter is NOT the identity: the
short-request override of `analyze_user_request` reclassifies the request as
specific, and the filter falls back to the first non-null pair. -/
theorem claim_C5_counterexample :
    filter_extracted_data
        [("invoice_number", Json.str "INV-001"), ("vat", Json.num ⟨1928, 100⟩)] "all" =
      [("invoice_number", Json.str "INV-001")] ∧
    filter_extracted_data
        [("invoice_number", Json.str "INV-001"), ("vat", Json.num ⟨1928, 100⟩)] "all" ≠
      [("invoice_number", Json.str "INV-001"), ("vat", Json.num ⟨1928, 100⟩)] := by
  refine ⟨rfl, ?_⟩
  intro h
  rw [show filter_extracted_data
      [("invoice_number", Json.str "INV-001"), ("vat", Json.num ⟨1928, 100⟩)] "all" =
      [("invoice_number", Json.str "INV-001")] from rfl] at h
  exact absurd (congrArg List.length h) (by decide)

/-- C5, amended: for every raw mapping and every user request whose
lower-cased text contains "all", "everything" or "complete",
`filter_extracted_data` is the identity on the raw mapping PROVIDED the
request also matches at least one field-category keyword or contains more
than five whitespace-separated words (otherwise the short-request override
forces SPECIFIC mode and the filter may reduce the mapping). -/
theorem claim_C5_amended :
    ∀ (d : List (String × Json)) (p : String),
      (["all", "everything", "complete"].any (fun t => pyIn t (pyLower p))) = true →
      ((analyze_user_request p).requested_fields ≠ [] ∨ 5 < (pySplitWs p).length) →
      filter_extracted_data d p = d := by
  intro d p h1 h2
  have hall := analyze_extraction_type_all p h1 h2
  unfold filter_extracted_data
  rw [if_pos hall]

/-- C5, witness: the amended theorem applied at the request
"extract all fields including the invoice number" (an all-request matching
the invoice_number category) and a one-field mapping. -/
theorem claim_C5_witness :
    filter_extracted_data [("vat", Json.num ⟨1928, 100⟩)]
      "extract all fields including the invoice number" =
      [("vat", Json.num ⟨1928, 100⟩)] :=
  claim_C5_amended _ _ rfl (Or.inl (by decide))

/-- C6 (code bug): `parse_llm_response` applied to the raw output "[1, 2,]"
takes the repair path (the strict parse fails on the trailing comma), and
the repair path returns whatever the repaired text parses to with no
mapping check — here the JSON array [1, 2], a non-mapping value, is
returned instead of an unparsable-response failure. -/
theorem claim_C6 :
    parse_llm_response "[1, 2,]" =
      Except.ok (Json.arr [Json.num ⟨1, 1⟩, Json.num ⟨2, 1⟩]) ∧
    (Json.arr [Json.num ⟨1, 1⟩, Json.num ⟨2, 1⟩]).isObj = false := by
  exact ⟨rfl, rfl⟩

/-- C7: the strict parse fails on both malformed inputs, the single repair
attempt rescues the trailing-comma object and the single-quoted object to
the expected mappings, and "not json at all" yields the unparsable-response
failure. -/
theorem claim_C7 :
    jsonLoads "\x7b\"a\": 1, \"b\": 2,\x7d" = none ∧
    parse_llm_response "\x7b\"a\": 1, \"b\": 2,\x7d" =
      Except.ok (Json.obj [("a", Json.num ⟨1, 1⟩), ("b", Json.num ⟨2, 1⟩)]) ∧
    jsonLoads "\x7b'a': 1\x7d" = none ∧
    parse_llm_response "\x7b'a': 1\x7d" = Except.ok (Json.obj [("a", Json.num ⟨1, 1⟩)]) ∧
    parse_llm_response "not json at all" =
      Except.error "Failed to parse LLM response as JSON" := by
  exact ⟨rfl, rfl, rfl, rfl, rfl⟩

/-- C8, counterexample: `post_process_data` maps the amount-keyed string
value "abc" (no digits, dots or hyphens at all) to null, not to the
retained string "abc" the claim requires. -/
theorem claim_C8_counterexample :
    post_process_data [("total", Json.str "abc")] = [("total", Json.null)] ∧
    post_process_data [("total", Json.str "abc")] ≠ [("total", Json.str "abc")] := by
  refine ⟨rfl, ?_⟩
  intro h
  rw [show post_process_data [("total", Json.str "abc")] = [("total", Json.null)] from
    rfl] at h
  injection h with h1 h2
  injection h1 with hk hv
  exact Json.noConfusion hv

/-- C8, amended: for an amount-keyed non-placeholder string value, when the
numeric parse of the non-empty stripped numeric string fails the value is
retained as the original trimmed string; but when stripping leaves an empty
string (no digits, `.` or `-` at all, e.g. "abc"), the value is coerced to
null rather than retained. -/
theorem claim_C8_amended :
    (∀ k s : String, amountKeyHit (cleanKey k) = true →
        isPlaceholderOrEmpty (pyTrim s) = false →
        numCoerce? (keepNumChars (pyTrim s)) = none →
        post_process_data [(k, Json.str s)] = [(cleanKey k, Json.str (pyTrim s))]) ∧
    (∀ k s : String, amountKeyHit (cleanKey k) = true →
        isPlaceholderOrEmpty (pyTrim s) = false →
        keepNumChars (pyTrim s) = "" →
        post_process_data [(k, Json.str s)] = [(cleanKey k, Json.null)]) := by
  constructor
  · intro k s h1 h2 h3
    unfold post_process_data processValue dictInsert
    simp [h1, h2, h3]
  · intro k s h1 h2 h3
    unfold post_process_data processValue dictInsert
    have h4 : numCoerce? (keepNumChars (pyTrim s)) = some Json.null := by
      rw [h3]
      rfl
    simp [h1, h2, h4]

/-- C8, witness: both parts of the amended theorem applied at concrete
inputs — "a-b" strips to "-", whose integer parse fails, so the trimmed
string is kept; " abc " strips to the empty numeric string and becomes
null. -/
theorem claim_C8_witness :
    post_process_data [("total", Json.str "a-b")] = [("total", Json.str "a-b")] ∧
    post_process_data [("total", Json.str " abc ")] = [("total", Json.null)] :=
  ⟨claim_C8_amended.1 "total" "a-b" rfl rfl rfl,
   claim_C8_amended.2 "total" " abc " rfl rfl rfl⟩

/-- C9, counterexample: for the mapping with total 10.0 and tax_amount 0.0
and the request "total", the second-highest amount is 0, the tax-rate
heuristic's percentage computation divides by zero, the catch-all handler
records a validation error, and the report comes back WITHOUT a summary —
refuting the claim that the summary is always present. -/
theorem claim_C9_counterexample :
    (validate_extraction
      [("total", Json.num ⟨10, 1⟩), ("tax_amount", Json.num ⟨0, 1⟩)] "total").summary
      = none ∧
    (validate_extraction
      [("total", Json.num ⟨10, 1⟩), ("tax_amount", Json.num ⟨0, 1⟩)] "total").errors
      = ["Validation error: float division by zero"] := by
  exact ⟨rfl, rfl⟩

/-- C9, amended: the report of `validate_extraction` carries a summary iff
the input mapping is non-empty and no internal exception occurred (the
division-by-zero of the tax-rate heuristic when the second-highest amount
is 0, or the TypeError of the email check); on the exception paths, and for
an empty mapping, the report is returned without a summary. -/
theorem claim_C9_amended :
    ∀ (data : List (String × Json)) (prompt : String),
      (validate_extraction data prompt).summary ≠ none ↔
        (data ≠ [] ∧ validationException data prompt = none) := by
  intro data prompt
  unfold validate_extraction validationException
  split
  · next hemp =>
      have hnil : data = [] := List.isEmpty_iff.mp hemp
      simp [hnil]
  · next hemp =>
      have hdne : data ≠ [] := by
        intro hn
        rw [hn] at hemp
        exact hemp rfl
      split
      · next e heq => simp [heq, hdne]
      · next tv heq =>
          dsimp only
          split
          · next vr2 e hrun =>
              have hsum := runFieldChecks_summary2 prompt data _ _ _ hrun
              dsimp only at hsum hrun ⊢
              simp [heq, hsum, hrun, hdne]
          · next vr2 hrun =>
              dsimp only at hrun ⊢
              simp [heq, hrun, hdne]

/-- C10: for every non-empty raw mapping and every user request,
`filter_extracted_data` returns a non-empty mapping — every fallback path
(best-effort single pair for short requests, or the entire raw mapping)
preserves non-emptiness, so the filter never discards all extracted data. -/
theorem claim_C10 :
    ∀ (d : List (String × Json)) (p : String), d ≠ [] → filter_extracted_data d p ≠ [] := by
  intro d p hd
  simp only [filter_extracted_data]
  repeat' split
  all_goals
    first
      | exact hd
      | (apply ne_nil_of_not_isEmpty; assumption)
      | (apply ne_nil_of_not_isEmpty; simp_all)

/-- C10, witness: the theorem applied at a concrete one-field mapping. -/
theorem claim_C10_witness :
    filter_extracted_data [("a", Json.null)] "x" ≠ [] :=
  claim_C10 _ _ (List.cons_ne_nil _ _)
